import Mathlib

/-!
Verification development for the Hetzner MCP server (TypeScript sources
`src/api.ts`, `src/tools/servers.ts`, `src/tools/reference.ts`,
`src/tools/ssh-keys.ts`, `src/types.ts`).

The TypeScript code is shallowly embedded: every handler becomes a pure Lean
function from its (schema-validated) parameters and the outcome of the single
outbound HTTP call (an `Except` value, standing for the awaited promise that
either resolves or rejects) to the tool result it returns.  JavaScript
truthiness on optional strings, the `try`/`catch` boundary of each handler and
the `JSON.stringify(·, null, 2)` rendering used by the machine-readable output
mode are modelled explicitly.
-/

namespace Hetzner

/-- JavaScript `Array.prototype.join(sep)`. -/
def joinWith (sep : String) : List String → String
  | [] => ""
  | [a] => a
  | a :: b :: rest => a ++ sep ++ joinWith sep (b :: rest)

/-- The `lines.join("\n")` operation as used by every markdown formatter. -/
def joinLines (lines : List String) : String := joinWith "\n" lines

/-- JavaScript `x || default` for an optional string (`undefined`, `null` and
`""` are falsy). -/
def jsOrElse (m : Option String) (d : String) : String :=
  match m with
  | some s => if s = "" then d else s
  | none => d

/-- JavaScript truthiness of a `string | null | undefined` value. -/
def jsTruthy (m : Option String) : Bool :=
  match m with
  | some s => s ≠ ""
  | none => false

/-- Whether `p` is a leading run of `s` (character-list level). -/
def listStartsWith : List Char → List Char → Bool
  | [], _ => true
  | _ :: _, [] => false
  | p :: ps, s :: ss => p == s && listStartsWith ps ss

/-- Whether `p` is a leading run of string `s`. -/
def strStartsWith (p s : String) : Bool := listStartsWith p.data s.data

/-- A run of `n` spaces, for JSON indentation. -/
def spaces (n : Nat) : String := String.mk (List.replicate n ' ')

/-! ## Data model (src/types.ts) -/

/-- The `ResponseFormat` enum. -/
inductive ResponseFormat where
  | markdown
  | json
deriving DecidableEq

/-- The `HetznerServer.status` string union. -/
inductive ServerStatus where
  | running | initializing | starting | stopping | off
  | deleting | rebuilding | migrating | unknown
deriving DecidableEq

def serverStatusStr : ServerStatus → String
  | .running => "running"
  | .initializing => "initializing"
  | .starting => "starting"
  | .stopping => "stopping"
  | .off => "off"
  | .deleting => "deleting"
  | .rebuilding => "rebuilding"
  | .migrating => "migrating"
  | .unknown => "unknown"

/-- An `ip` record inside `public_net`. -/
structure PublicIp where
  ip : String
deriving DecidableEq

structure PublicNet where
  ipv4 : Option PublicIp
  ipv6 : Option PublicIp
deriving DecidableEq

/-- Embedded `server_type` record of a `HetznerServer`. -/
structure ServerTypeInfo where
  id : Nat
  name : String
  description : String
  cores : Nat
  memory : Nat
  disk : Nat
deriving DecidableEq

structure DatacenterLocation where
  id : Nat
  name : String
  city : String
  country : String
deriving DecidableEq

structure Datacenter where
  id : Nat
  name : String
  description : String
  location : DatacenterLocation
deriving DecidableEq

/-- Embedded `image` record of a `HetznerServer` (nullable). -/
structure ServerImage where
  id : Nat
  name : String
  description : String
  os_flavor : String
  os_version : String
deriving DecidableEq

/-- The `HetznerServer` entity.  The label map is an insertion-ordered association list,
matching the key order `Object.entries` observes on the parsed JSON object. -/
structure HetznerServer where
  id : Nat
  name : String
  status : ServerStatus
  public_net : PublicNet
  server_type : ServerTypeInfo
  datacenter : Datacenter
  image : Option ServerImage
  labels : List (String × String)
  created : String
deriving DecidableEq

inductive ActionStatus where
  | running | success | error
deriving DecidableEq

def actionStatusStr : ActionStatus → String
  | .running => "running"
  | .success => "success"
  | .error => "error"

structure ActionError where
  code : String
  message : String
deriving DecidableEq

structure HetznerAction where
  id : Nat
  command : String
  status : ActionStatus
  progress : Nat
  started : String
  finished : Option String
  error : Option ActionError
deriving DecidableEq

structure HetznerSSHKey where
  id : Nat
  name : String
  fingerprint : String
  public_key : String
  labels : List (String × String)
  created : String
deriving DecidableEq

inductive ImageType where
  | system | snapshot | backup | app
deriving DecidableEq

def imageTypeStr : ImageType → String
  | .system => "system"
  | .snapshot => "snapshot"
  | .backup => "backup"
  | .app => "app"

inductive ImageStatus where
  | available | creating | unavailable
deriving DecidableEq

def imageStatusStr : ImageStatus → String
  | .available => "available"
  | .creating => "creating"
  | .unavailable => "unavailable"

structure HetznerImage where
  id : Nat
  name : String
  description : String
  os_flavor : String
  os_version : String
  type : ImageType
  status : ImageStatus
  architecture : String
deriving DecidableEq

structure PriceAmount where
  net : String
  gross : String
deriving DecidableEq

structure ServerTypePrice where
  location : String
  price_hourly : PriceAmount
  price_monthly : PriceAmount
deriving DecidableEq

structure HetznerServerType where
  id : Nat
  name : String
  description : String
  cores : Nat
  memory : Nat
  disk : Nat
  prices : List ServerTypePrice
  architecture : String
  cpu_type : String
deriving DecidableEq

/-- The `HetznerLocation` entity.  The source declares `latitude`/`longitude` as JS
numbers; no operation reads them except the raw JSON dump, and no claim
depends on them, so they are modelled as integers. -/
structure HetznerLocation where
  id : Nat
  name : String
  description : String
  country : String
  city : String
  latitude : Int
  longitude : Int
  network_zone : String
deriving DecidableEq

structure ListServersResponse where
  servers : List HetznerServer
deriving DecidableEq

structure GetServerResponse where
  server : HetznerServer
deriving DecidableEq

structure CreateServerResponse where
  server : HetznerServer
  action : HetznerAction
  root_password : Option String
deriving DecidableEq

structure ServerActionResponse where
  action : HetznerAction
deriving DecidableEq

structure ListServerTypesResponse where
  server_types : List HetznerServerType
deriving DecidableEq

structure ListImagesResponse where
  images : List HetznerImage
deriving DecidableEq

structure ListLocationsResponse where
  locations : List HetznerLocation
deriving DecidableEq

structure ListSSHKeysResponse where
  ssh_keys : List HetznerSSHKey
deriving DecidableEq

structure GetSSHKeyResponse where
  ssh_key : HetznerSSHKey
deriving DecidableEq

structure CreateSSHKeyResponse where
  ssh_key : HetznerSSHKey
deriving DecidableEq

/-! ## JSON rendering (`JSON.stringify(value, null, 2)`)

The machine-readable output mode of every list/get operation dumps the raw
entity set through `JSON.stringify(·, null, 2)`.  The platform builtin is
modelled on a small JSON value type, with the indentation, separator and
string-escaping behaviour of the ECMAScript specification. -/

inductive JsonVal where
  | null
  | bool (b : Bool)
  | num (n : Int)
  | str (s : String)
  | arr (xs : List JsonVal)
  | obj (fields : List (String × JsonVal))

def hexDigit (n : Nat) : String :=
  String.singleton (if n < 10 then Char.ofNat (48 + n) else Char.ofNat (87 + n))

/-- JSON string escaping as performed by `JSON.stringify`. -/
def escapeJsonChar (c : Char) : String :=
  if c = '"' then "\\\""
  else if c = '\\' then "\\\\"
  else if c = '\n' then "\\n"
  else if c = '\r' then "\\r"
  else if c = '\t' then "\\t"
  else if c = '\x08' then "\\b"
  else if c = '\x0c' then "\\f"
  else if c.toNat < 32 then "\\u00" ++ hexDigit (c.toNat / 16) ++ hexDigit (c.toNat % 16)
  else String.singleton c

def quoteJson (s : String) : String :=
  "\"" ++ String.join (s.data.map escapeJsonChar) ++ "\""

mutual

/-- Rendering of `JSON.stringify(v, null, 2)` at nesting depth `d`. -/
def renderJson (d : Nat) : JsonVal → String
  | .null => "null"
  | .bool b => cond b "true" "false"
  | .num n => toString n
  | .str s => quoteJson s
  | .arr [] => "[]"
  | .arr (x :: xs) =>
      "[\n" ++ joinWith ",\n" (renderJsonItems (d + 1) (x :: xs)) ++ "\n" ++ spaces (2 * d) ++ "]"
  | .obj [] => "\x7b\x7d"
  | .obj (f :: fs) =>
      "\x7b\n" ++ joinWith ",\n" (renderJsonFields (d + 1) (f :: fs)) ++ "\n" ++ spaces (2 * d) ++ "\x7d"

def renderJsonItems (d : Nat) : List JsonVal → List String
  | [] => []
  | v :: vs => (spaces (2 * d) ++ renderJson d v) :: renderJsonItems d vs

def renderJsonFields (d : Nat) : List (String × JsonVal) → List String
  | [] => []
  | (k, v) :: fs => (spaces (2 * d) ++ quoteJson k ++ ": " ++ renderJson d v) :: renderJsonFields d fs

end

/-- JSON encoding of a `HetznerServer`, field order as declared in
`src/types.ts` (the order `JSON.stringify` observes on the parsed record). -/
def serverToJson (srv : HetznerServer) : JsonVal :=
  .obj
    [ ("id", .num srv.id),
      ("name", .str srv.name),
      ("status", .str (serverStatusStr srv.status)),
      ("public_net", .obj
        [ ("ipv4", match srv.public_net.ipv4 with
            | some p => .obj [("ip", .str p.ip)]
            | none => .null),
          ("ipv6", match srv.public_net.ipv6 with
            | some p => .obj [("ip", .str p.ip)]
            | none => .null) ]),
      ("server_type", .obj
        [ ("id", .num srv.server_type.id),
          ("name", .str srv.server_type.name),
          ("description", .str srv.server_type.description),
          ("cores", .num srv.server_type.cores),
          ("memory", .num srv.server_type.memory),
          ("disk", .num srv.server_type.disk) ]),
      ("datacenter", .obj
        [ ("id", .num srv.datacenter.id),
          ("name", .str srv.datacenter.name),
          ("description", .str srv.datacenter.description),
          ("location", .obj
            [ ("id", .num srv.datacenter.location.id),
              ("name", .str srv.datacenter.location.name),
              ("city", .str srv.datacenter.location.city),
              ("country", .str srv.datacenter.location.country) ]) ]),
      ("image", match srv.image with
        | some img => .obj
            [ ("id", .num img.id),
              ("name", .str img.name),
              ("description", .str img.description),
              ("os_flavor", .str img.os_flavor),
              ("os_version", .str img.os_version) ]
        | none => .null),
      ("labels", .obj (srv.labels.map (fun kv => (kv.1, .str kv.2)))),
      ("created", .str srv.created) ]

def sshKeyToJson (key : HetznerSSHKey) : JsonVal :=
  .obj
    [ ("id", .num key.id),
      ("name", .str key.name),
      ("fingerprint", .str key.fingerprint),
      ("public_key", .str key.public_key),
      ("labels", .obj (key.labels.map (fun kv => (kv.1, .str kv.2)))),
      ("created", .str key.created) ]

def imageToJson (img : HetznerImage) : JsonVal :=
  .obj
    [ ("id", .num img.id),
      ("name", .str img.name),
      ("description", .str img.description),
      ("os_flavor", .str img.os_flavor),
      ("os_version", .str img.os_version),
      ("type", .str (imageTypeStr img.type)),
      ("status", .str (imageStatusStr img.status)),
      ("architecture", .str img.architecture) ]

def serverTypeToJson (st : HetznerServerType) : JsonVal :=
  .obj
    [ ("id", .num st.id),
      ("name", .str st.name),
      ("description", .str st.description),
      ("cores", .num st.cores),
      ("memory", .num st.memory),
      ("disk", .num st.disk),
      ("prices", .arr (st.prices.map (fun p => .obj
        [ ("location", .str p.location),
          ("price_hourly", .obj [("net", .str p.price_hourly.net), ("gross", .str p.price_hourly.gross)]),
          ("price_monthly", .obj [("net", .str p.price_monthly.net), ("gross", .str p.price_monthly.gross)]) ]))),
      ("architecture", .str st.architecture),
      ("cpu_type", .str st.cpu_type) ]

def locationToJson (loc : HetznerLocation) : JsonVal :=
  .obj
    [ ("id", .num loc.id),
      ("name", .str loc.name),
      ("description", .str loc.description),
      ("country", .str loc.country),
      ("city", .str loc.city),
      ("latitude", .num loc.latitude),
      ("longitude", .num loc.longitude),
      ("network_zone", .str loc.network_zone) ]

/-! ## Transport client (src/api.ts, `getApiClient` / `makeApiRequest`) -/

def API_BASE_URL : String := "https://api.hetzner.cloud/v1"

/-- The axios instance configuration created by `axios.create` in
`getApiClient`. -/
structure AxiosClientConfig where
  baseURL : String
  timeout : Nat
  headers : List (String × String)
deriving DecidableEq

def axiosCreate (token : String) : AxiosClientConfig :=
  { baseURL := API_BASE_URL,
    timeout := 30000,
    headers :=
      [ ("Authorization", "Bearer " ++ token),
        ("Content-Type", "application/json"),
        ("Accept", "application/json") ] }

/-- The `getApiClient` function over explicit state: `env` is `process.env.HETZNER_API_TOKEN`
(`none` = unset; the source's `if (!token)` also rejects the empty string),
`st` is the module-level `apiClient` variable.  Returns the client together
with the updated module state, or the thrown configuration error message. -/
def getApiClient (env : Option String) (st : Option AxiosClientConfig) :
    Except String (AxiosClientConfig × Option AxiosClientConfig) :=
  match st with
  | some c => .ok (c, some c)
  | none =>
    match env with
    | none => .error "HETZNER_API_TOKEN environment variable is required"
    | some token =>
      if token = "" then .error "HETZNER_API_TOKEN environment variable is required"
      else
        let c := axiosCreate token
        .ok (c, some c)

/-! ## Error normalizer (src/api.ts, `handleApiError`) -/

/-- The `unknown` value caught by a handler's `catch` block:
* `axiosWithResponse status hetznerMsg message` — an `AxiosError` whose
  `error.response` is set; `hetznerMsg` is the optional chain
  `(error.response.data as HetznerAPIError | undefined)?.error?.message`,
  `message` is `error.message`;
* `axiosNoResponse code message` — an `AxiosError` without a response
  (`code` is the optional `error.code`); such a value is still an
  `instanceof Error` with message `message`;
* `plainError message` — any other `Error` instance;
* `nonError` — any thrown value that is not an `Error`. -/
inductive ThrownValue where
  | axiosWithResponse (status : Nat) (hetznerMsg : Option String) (message : String)
  | axiosNoResponse (code : Option String) (message : String)
  | plainError (message : String)
  | nonError
deriving DecidableEq

/-- The `handleApiError` normalizer (src/api.ts lines 44–81).  The `switch (status)` is
rendered as the equivalent chain of equality tests. -/
def handleApiError : ThrownValue → String
  | .axiosWithResponse status hetznerMsg message =>
    if status = 401 then
      "Error: Authentication failed. Please check your HETZNER_API_TOKEN."
    else if status = 403 then
      "Error: Permission denied. " ++ jsOrElse hetznerMsg "You don't have access to this resource."
    else if status = 404 then
      "Error: Resource not found. " ++ jsOrElse hetznerMsg "Please check the ID is correct."
    else if status = 409 then
      "Error: Conflict. " ++ jsOrElse hetznerMsg "The resource is in a conflicting state."
    else if status = 422 then
      "Error: Invalid request. " ++ jsOrElse hetznerMsg "Please check your parameters."
    else if status = 429 then
      "Error: Rate limit exceeded. Please wait a moment before making more requests."
    else if status = 503 then
      "Error: Hetzner API is temporarily unavailable. Please try again later."
    else
      "Error: API request failed (" ++ toString status ++ "). " ++ jsOrElse hetznerMsg message
  | .axiosNoResponse code message =>
    if code = some "ECONNABORTED" then
      "Error: Request timed out. Please try again."
    else if code = some "ENOTFOUND" then
      "Error: Could not connect to Hetzner API. Please check your internet connection."
    else
      -- an AxiosError is an Error, so it falls through to the
      -- `error instanceof Error` branch
      "Error: " ++ message
  | .plainError message => "Error: " ++ message
  | .nonError => "Error: An unexpected error occurred."

/-! ## Tool results -/

/-- A `{ type: "text", text }` content item (the only kind produced). -/
structure TextContent where
  text : String
deriving DecidableEq

/-- The value returned by a tool handler.  A success return carries no
`isError` field, which the protocol treats as `false`. -/
structure ToolResult where
  content : List TextContent
  isError : Bool
deriving DecidableEq

/-- The result every `catch` block produces. -/
def errorResult (e : ThrownValue) : ToolResult :=
  { content := [{ text := handleApiError e }], isError := true }

/-! ## Server formatter (src/tools/servers.ts, `formatServer`)

`new Date(server.created).toLocaleString()` is locale- and timezone-dependent;
it is abstracted as a `tls : String → String` parameter threaded through every
definition that renders a creation date, and every theorem quantifies over it. -/

def serverHeadingLine (srv : HetznerServer) : String :=
  "## " ++ (srv.name ++ " (ID: " ++ toString srv.id ++ ")")

def labelsLine (labels : List (String × String)) : String :=
  "- **Labels**: " ++ joinWith ", " (labels.map (fun kv => kv.1 ++ "=" ++ kv.2))

def formatServerLines (tls : String → String) (srv : HetznerServer) : List String :=
  let ipv4 := jsOrElse (srv.public_net.ipv4.map PublicIp.ip) "N/A"
  let ipv6 := jsOrElse (srv.public_net.ipv6.map PublicIp.ip) "N/A"
  let base :=
    [ serverHeadingLine srv,
      "- **Status**: " ++ serverStatusStr srv.status,
      "- **IPv4**: " ++ ipv4,
      "- **IPv6**: " ++ ipv6,
      "- **Type**: " ++ (srv.server_type.name ++ " (" ++ toString srv.server_type.cores
        ++ " cores, " ++ toString srv.server_type.memory ++ "GB RAM, "
        ++ toString srv.server_type.disk ++ "GB disk)"),
      "- **Location**: " ++ (srv.datacenter.location.city ++ ", "
        ++ srv.datacenter.location.country ++ " (" ++ srv.datacenter.name ++ ")") ]
  let withImage := base ++
    (match srv.image with
     | some img => ["- **Image**: " ++ (img.name ++ " (" ++ img.os_flavor ++ " " ++ img.os_version ++ ")")]
     | none => [])
  let withCreated := withImage ++ ["- **Created**: " ++ tls srv.created]
  withCreated ++ (if srv.labels.length > 0 then [labelsLine srv.labels] else [])

def formatServer (tls : String → String) (srv : HetznerServer) : String :=
  joinLines (formatServerLines tls srv)

/-! ## SSH key formatter (src/tools/ssh-keys.ts, `formatSSHKey`) -/

def formatSSHKeyLines (tls : String → String) (key : HetznerSSHKey) : List String :=
  [ "## " ++ (key.name ++ " (ID: " ++ toString key.id ++ ")"),
    "- **Fingerprint**: " ++ key.fingerprint,
    "- **Created**: " ++ tls key.created ]
  ++ (if key.labels.length > 0 then [labelsLine key.labels] else [])

def formatSSHKey (tls : String → String) (key : HetznerSSHKey) : String :=
  joinLines (formatSSHKeyLines tls key)

/-! ## Create-server input, validation and request body -/

/-- zod `z.union([z.string(), z.number()])` SSH key reference. -/
inductive SSHKeyRef where
  | byName (name : String)
  | byId (id : Nat)
deriving DecidableEq

/-- Parsed input of `hetzner_create_server` (shape after the zod schema has
applied its defaults). -/
structure CreateServerParams where
  name : String
  server_type : String
  image : String
  location : Option String := none
  ssh_keys : Option (List SSHKeyRef) := none
  labels : Option (List (String × String)) := none
  start_after_create : Bool := true
  response_format : ResponseFormat := .markdown
deriving DecidableEq

/-- The zod refinement on the `name` field:
`z.string().min(1).max(255).regex(/^[a-zA-Z0-9-]+$/)`. -/
def validServerName (s : String) : Bool :=
  decide (1 ≤ s.length) && decide (s.length ≤ 255)
    && s.data.all (fun c => c.isAlpha || c.isDigit || c == '-')

/-- The residual zod constraints of the `hetzner_create_server` input schema
(the field types themselves are enforced by the Lean types). -/
def validCreateServerParams (p : CreateServerParams) : Bool :=
  validServerName p.name && decide (1 ≤ p.server_type.length) && decide (1 ≤ p.image.length)

/-- The POST body built by the handler (src/tools/servers.ts lines 270–285).
Optional fields are present exactly when the corresponding `if` fires. -/
structure CreateServerRequest where
  name : String
  server_type : String
  image : String
  start_after_create : Bool
  location : Option String
  ssh_keys : Option (List SSHKeyRef)
  labels : Option (List (String × String))
deriving DecidableEq

def buildCreateServerRequest (p : CreateServerParams) : CreateServerRequest :=
  { name := p.name,
    server_type := p.server_type,
    image := p.image,
    start_after_create := p.start_after_create,
    -- `if (params.location)`: string truthiness
    location := match p.location with
      | some l => if l = "" then none else some l
      | none => none,
    -- `if (params.ssh_keys && params.ssh_keys.length > 0)`
    ssh_keys := match p.ssh_keys with
      | some ks => if ks.length > 0 then some ks else none
      | none => none,
    -- `if (params.labels)`: any object (even empty) is truthy
    labels := p.labels }

/-- The request the create-server tool sends for a given raw input: the MCP
harness validates the input schema before dispatching to the handler, so an
input rejected by the schema never reaches `makeApiRequest` — no request is
built or sent. -/
def createServerAttemptedRequest (p : CreateServerParams) : Option CreateServerRequest :=
  if validCreateServerParams p then some (buildCreateServerRequest p) else none

/-! ## Handlers

Each handler is the body of the corresponding `async (params) => { try … catch … }`
closure.  The awaited `makeApiRequest` call is the `Except ThrownValue _`
argument (`.error e` = the promise rejected with `e`, which the `catch` block
receives).  Where the source computes query parameters or a request body
before the call, the handler takes the transport as a function of them. -/

/-- Query parameters of `hetzner_list_servers`
(`if (params.label_selector) queryParams.label_selector = …`). -/
def listServersQuery (label_selector : Option String) : List (String × String) :=
  match label_selector with
  | some s => if s = "" then [] else [("label_selector", s)]
  | none => []

/-- The `hetzner_list_servers` handler. -/
def listServersH (tls : String → String) (label_selector : Option String)
    (fmt : ResponseFormat)
    (api : List (String × String) → Except ThrownValue ListServersResponse) : ToolResult :=
  match api (listServersQuery label_selector) with
  | .error e => errorResult e
  | .ok data =>
    let servers := data.servers
    if fmt = ResponseFormat.json then
      { content := [{ text := renderJson 0 (.arr (servers.map serverToJson)) }], isError := false }
    else if servers.length = 0 then
      { content := [{ text := "No servers found. Use `hetzner_create_server` to create one." }],
        isError := false }
    else
      let lines := ["# Servers", "", "Found " ++ toString servers.length ++ " server(s):", ""]
        ++ servers.flatMap (fun srv => [formatServer tls srv, ""])
      { content := [{ text := joinLines lines }], isError := false }

/-- The `hetzner_get_server` handler (`idv` is the validated `params.id`, used only
in the request path). -/
def getServerH (tls : String → String) (_idv : Nat) (fmt : ResponseFormat)
    (r : Except ThrownValue GetServerResponse) : ToolResult :=
  match r with
  | .error e => errorResult e
  | .ok data =>
    let srv := data.server
    if fmt = ResponseFormat.json then
      { content := [{ text := renderJson 0 (serverToJson srv) }], isError := false }
    else
      { content := [{ text := joinLines ["# Server Details", "", formatServer tls srv] }],
        isError := false }

/-- The `"**Root Password**: \`" + rootPassword + "\`"` line. -/
def rootPasswordLine (pw : String) : String :=
  "**Root Password**: `" ++ pw ++ "`"

def rootPasswordWarnLine : String :=
  "⚠️ Save this password! It will not be shown again."

def noRootPasswordLine : String :=
  "SSH key authentication is configured. No root password was generated."

/-- Markdown body of a successful `hetzner_create_server` call
(src/tools/servers.ts lines 297–313).  The `if (rootPassword)` branch fires on
JS truthiness of the provider-returned `root_password` field. -/
def createServerMarkdownLines (tls : String → String) (srv : HetznerServer)
    (rootPassword : Option String) : List String :=
  ["# Server Created", "", formatServer tls srv, ""]
  ++ (if jsTruthy rootPassword then
        [rootPasswordLine (jsOrElse rootPassword ""), "", rootPasswordWarnLine]
      else
        [noRootPasswordLine])
  ++ ["", "The server is being provisioned. Use `hetzner_get_server` to check its status."]

/-- The `hetzner_create_server` handler. -/
def createServerH (tls : String → String) (p : CreateServerParams)
    (r : Except ThrownValue CreateServerResponse) : ToolResult :=
  match r with
  | .error e => errorResult e
  | .ok data =>
    let srv := data.server
    let rootPassword := data.root_password
    if p.response_format = ResponseFormat.json then
      { content := [{ text := renderJson 0 (.obj
          [ ("server", serverToJson srv),
            ("root_password", match rootPassword with
              | some pw => .str pw
              | none => .null) ]) }],
        isError := false }
    else
      { content := [{ text := joinLines (createServerMarkdownLines tls srv rootPassword) }],
        isError := false }

/-- The `hetzner_delete_server` handler. -/
def deleteServerH (idv : Nat) (r : Except ThrownValue ServerActionResponse) : ToolResult :=
  match r with
  | .error e => errorResult e
  | .ok data =>
    { content := [{ text := "Server " ++ toString idv ++ " is being deleted. Action status: "
        ++ actionStatusStr data.action.status }],
      isError := false }

/-- The `hetzner_power_on_server` handler. -/
def powerOnServerH (idv : Nat) (r : Except ThrownValue ServerActionResponse) : ToolResult :=
  match r with
  | .error e => errorResult e
  | .ok data =>
    { content := [{ text := "Server " ++ toString idv ++ " is powering on. Action status: "
        ++ actionStatusStr data.action.status }],
      isError := false }

/-- The `hetzner_power_off_server` handler. -/
def powerOffServerH (idv : Nat) (r : Except ThrownValue ServerActionResponse) : ToolResult :=
  match r with
  | .error e => errorResult e
  | .ok data =>
    { content := [{ text := "Server " ++ toString idv ++ " is powering off. Action status: "
        ++ actionStatusStr data.action.status }],
      isError := false }

/-- The `hetzner_reboot_server` handler. -/
def rebootServerH (idv : Nat) (r : Except ThrownValue ServerActionResponse) : ToolResult :=
  match r with
  | .error e => errorResult e
  | .ok data =>
    { content := [{ text := "Server " ++ toString idv ++ " is rebooting. Action status: "
        ++ actionStatusStr data.action.status }],
      isError := false }

/-- The `hetzner_list_ssh_keys` handler. -/
def listSSHKeysH (tls : String → String) (fmt : ResponseFormat)
    (r : Except ThrownValue ListSSHKeysResponse) : ToolResult :=
  match r with
  | .error e => errorResult e
  | .ok data =>
    let keys := data.ssh_keys
    if fmt = ResponseFormat.json then
      { content := [{ text := renderJson 0 (.arr (keys.map sshKeyToJson)) }], isError := false }
    else if keys.length = 0 then
      { content := [{ text := "No SSH keys found. Use `hetzner_create_ssh_key` to add one." }],
        isError := false }
    else
      let lines := ["# SSH Keys", "", "Found " ++ toString keys.length ++ " SSH key(s):", ""]
        ++ keys.flatMap (fun key => [formatSSHKey tls key, ""])
      { content := [{ text := joinLines lines }], isError := false }

/-- The `hetzner_get_ssh_key` handler. -/
def getSSHKeyH (tls : String → String) (_idv : Nat) (fmt : ResponseFormat)
    (r : Except ThrownValue GetSSHKeyResponse) : ToolResult :=
  match r with
  | .error e => errorResult e
  | .ok data =>
    let key := data.ssh_key
    if fmt = ResponseFormat.json then
      { content := [{ text := renderJson 0 (sshKeyToJson key) }], isError := false }
    else
      { content := [{ text := joinLines (
          [ "# SSH Key Details", "", formatSSHKey tls key, "",
            "**Public Key**:", "```", key.public_key, "```" ]) }],
        isError := false }

/-- Parsed input of `hetzner_create_ssh_key`. -/
structure CreateSSHKeyParams where
  name : String
  public_key : String
  labels : Option (List (String × String)) := none
  response_format : ResponseFormat := .markdown
deriving DecidableEq

/-- The `hetzner_create_ssh_key` handler. -/
def createSSHKeyH (tls : String → String) (p : CreateSSHKeyParams)
    (r : Except ThrownValue CreateSSHKeyResponse) : ToolResult :=
  match r with
  | .error e => errorResult e
  | .ok data =>
    let key := data.ssh_key
    if p.response_format = ResponseFormat.json then
      { content := [{ text := renderJson 0 (sshKeyToJson key) }], isError := false }
    else
      { content := [{ text := joinLines (
          [ "# SSH Key Created", "", formatSSHKey tls key, "",
            "You can now use this SSH key when creating servers by specifying its name or ID." ]) }],
        isError := false }

/-- The `hetzner_delete_ssh_key` handler (the untyped `makeApiRequest` result is
discarded). -/
def deleteSSHKeyH (idv : Nat) (r : Except ThrownValue Unit) : ToolResult :=
  match r with
  | .error e => errorResult e
  | .ok _ =>
    { content := [{ text := "SSH key " ++ toString idv ++ " has been deleted." }],
      isError := false }

/-- The `hetzner_list_server_types` handler. -/
def listServerTypesH (fmt : ResponseFormat)
    (r : Except ThrownValue ListServerTypesResponse) : ToolResult :=
  match r with
  | .error e => errorResult e
  | .ok data =>
    let serverTypes := data.server_types
    if fmt = ResponseFormat.json then
      { content := [{ text := renderJson 0 (.arr (serverTypes.map serverTypeToJson)) }],
        isError := false }
    else
      let lines := ["# Available Server Types", ""]
        ++ serverTypes.flatMap (fun st =>
            [ "## " ++ st.name,
              "- **Description**: " ++ st.description,
              "- **CPU**: " ++ (toString st.cores ++ " cores (" ++ st.cpu_type ++ ")"),
              "- **Memory**: " ++ (toString st.memory ++ " GB"),
              "- **Disk**: " ++ (toString st.disk ++ " GB"),
              "- **Architecture**: " ++ st.architecture ]
            ++ (match st.prices with
                | [] => []
                | price :: _ =>
                  [ "- **Price**: €" ++ (price.price_monthly.gross ++ "/month (€"
                      ++ price.price_hourly.gross ++ "/hour)") ])
            ++ [""])
      { content := [{ text := joinLines lines }], isError := false }

/-- Parsed input type filter of `hetzner_list_images`. -/
def listImagesQueryType (t : Option ImageType) : String :=
  match t with
  | some ty => imageTypeStr ty
  | none => "system"

/-- Query parameters of `hetzner_list_images`: the handler always sets
`queryParams.type`, defaulting to `"system"`. -/
def listImagesQuery (t : Option ImageType) : List (String × String) :=
  [("type", listImagesQueryType t)]

/-- The entity set a `hetzner_list_images` invocation surfaces:
`data.images.filter(img => img.status === "available")`. -/
def listImagesResultSet (resp : ListImagesResponse) : List HetznerImage :=
  resp.images.filter (fun img => decide (img.status = ImageStatus.available))

/-- JS `flavor.charAt(0).toUpperCase() + flavor.slice(1)`. -/
def capitalizeFlavor (s : String) : String :=
  match s.data with
  | [] => ""
  | c :: rest => String.mk (c.toUpper :: rest)

/-- Grouping `byFlavor` built by insertion into a plain object: first-seen key
order, values appended in encounter order. -/
def insertFlavor (acc : List (String × List HetznerImage)) (key : String)
    (img : HetznerImage) : List (String × List HetznerImage) :=
  match acc with
  | [] => [(key, [img])]
  | (k, v) :: rest =>
    if k = key then (k, v ++ [img]) :: rest
    else (k, v) :: insertFlavor rest key img

def groupByFlavor (imgs : List HetznerImage) : List (String × List HetznerImage) :=
  imgs.foldl (fun acc img => insertFlavor acc (jsOrElse (some img.os_flavor) "other") img) []

/-- The `hetzner_list_images` handler. -/
def listImagesH (t : Option ImageType) (fmt : ResponseFormat)
    (api : List (String × String) → Except ThrownValue ListImagesResponse) : ToolResult :=
  match api (listImagesQuery t) with
  | .error e => errorResult e
  | .ok data =>
    let images := listImagesResultSet data
    if fmt = ResponseFormat.json then
      { content := [{ text := renderJson 0 (.arr (images.map imageToJson)) }], isError := false }
    else
      let lines := ["# Available Images", ""]
        ++ (groupByFlavor images).flatMap (fun fl =>
            ("## " ++ capitalizeFlavor fl.1)
            :: fl.2.map (fun img =>
                "- **" ++ (img.name ++ "** - " ++ img.description ++ " (" ++ img.architecture ++ ")"))
            ++ [""])
      { content := [{ text := joinLines lines }], isError := false }

/-- The `hetzner_list_locations` handler. -/
def listLocationsH (fmt : ResponseFormat)
    (r : Except ThrownValue ListLocationsResponse) : ToolResult :=
  match r with
  | .error e => errorResult e
  | .ok data =>
    let locations := data.locations
    if fmt = ResponseFormat.json then
      { content := [{ text := renderJson 0 (.arr (locations.map locationToJson)) }],
        isError := false }
    else
      let lines := ["# Available Locations", ""]
        ++ locations.flatMap (fun loc =>
            [ "## " ++ loc.name,
              "- **City**: " ++ (loc.city ++ ", " ++ loc.country),
              "- **Description**: " ++ loc.description,
              "- **Network Zone**: " ++ loc.network_zone,
              "" ])
      { content := [{ text := joinLines lines }], isError := false }

/-! ## Spec-side definitions for the error-normalizer table (§4.2)

These two definitions are modelled from the spec, not from the source: they
restate §4.2's table (status code / failure kind → message category) so that
`handleApiError` can be proved to refine it. -/

inductive ErrCategory where
  | auth | permission | notFound | conflict | invalidReq
  | rateLimit | unavailable | otherHttp | timeout | unreachable | fallback
deriving DecidableEq

/-- Modelled from the spec: the category §4.2's table assigns to each failure.
The row is selected by the HTTP status when a response is present, by the
connection-failure kind when not, and falls back to the generic row for any
other exception. -/
def specErrorCategory : ThrownValue → ErrCategory
  | .axiosWithResponse status _ _ =>
    if status = 401 then .auth
    else if status = 403 then .permission
    else if status = 404 then .notFound
    else if status = 409 then .conflict
    else if status = 422 then .invalidReq
    else if status = 429 then .rateLimit
    else if status = 503 then .unavailable
    else .otherHttp
  | .axiosNoResponse code _ =>
    if code = some "ECONNABORTED" then .timeout
    else if code = some "ENOTFOUND" then .unreachable
    else .fallback
  | .plainError _ => .fallback
  | .nonError => .fallback

/-- Modelled from the spec: the distinctive leading text of each message
category in §4.2's table (the table fixes categories of human-readable lines,
not exact strings; the generic fallback row only promises an error line). -/
def categoryHallmark : ErrCategory → String
  | .auth => "Error: Authentication failed"
  | .permission => "Error: Permission denied."
  | .notFound => "Error: Resource not found."
  | .conflict => "Error: Conflict."
  | .invalidReq => "Error: Invalid request."
  | .rateLimit => "Error: Rate limit exceeded"
  | .unavailable => "Error: Hetzner API is temporarily unavailable"
  | .otherHttp => "Error: API request failed ("
  | .timeout => "Error: Request timed out"
  | .unreachable => "Error: Could not connect"
  | .fallback => "Error: "

/-- A message belongs to a §4.2 category when it leads with the category's
distinctive text. -/
def messageInCategory (cat : ErrCategory) (msg : String) : Bool :=
  strStartsWith (categoryHallmark cat) msg

/-! ## String lemmas -/

theorem listStartsWith_refl (p : List Char) : listStartsWith p p = true := by
  induction p with
  | nil => rfl
  | cons a ps ih => simp [listStartsWith, ih]

theorem listStartsWith_append_right {p c : List Char} (x : List Char)
    (h : listStartsWith p c = true) : listStartsWith p (c ++ x) = true := by
  induction p generalizing c with
  | nil => rfl
  | cons a ps ih =>
    cases c with
    | nil => simp [listStartsWith] at h
    | cons b cs =>
      simp only [listStartsWith, Bool.and_eq_true] at h
      simp only [List.cons_append, listStartsWith, Bool.and_eq_true]
      exact ⟨h.1, ih h.2⟩

/-- If `a` is not a leading run of `b`, then no extension of `a` equals `b`. -/
theorem ne_of_not_startsWith {a b : String} (x : String)
    (h : listStartsWith a.data b.data = false) : a ++ x ≠ b := by
  intro he
  have hd : a.data ++ x.data = b.data := by
    rw [← String.data_append, he]
  have ht : listStartsWith a.data b.data = true := by
    rw [← hd]
    exact listStartsWith_append_right _ (listStartsWith_refl a.data)
  rw [ht] at h
  exact Bool.noConfusion h

theorem string_ne_of_head_ne {s t : String} (h : s.data.head? ≠ t.data.head?) : s ≠ t :=
  fun he => h (by rw [he])

/-- First character of `a ++ u` when `a`'s characters are known. -/
theorem head_append_of_data {a : String} {c : Char} {rest : List Char} (u : String)
    (ha : a.data = c :: rest) : (a ++ u).data.head? = some c := by
  rw [String.data_append, ha]
  rfl

/-- Appending cancels on the left: `a ++ u = a ++ v` gives `u = v`. -/
theorem strAppend_cancel_left {a u v : String} (h : a ++ u = a ++ v) : u = v := by
  have hd : a.data ++ u.data = a.data ++ v.data := by
    rw [← String.data_append, ← String.data_append, h]
  exact String.ext (List.append_cancel_left hd)

/-- Appending cancels on the right: `u ++ a = v ++ a` gives `u = v`. -/
theorem strAppend_cancel_right {a u v : String} (h : u ++ a = v ++ a) : u = v := by
  have hd : u.data ++ a.data = v.data ++ a.data := by
    rw [← String.data_append, ← String.data_append, h]
  exact String.ext (List.append_cancel_right hd)

/-! ## Claim theorems -/

/-- C1: `handleApiError` is a total function on thrown values (it is defined on
every constructor of `ThrownValue` and, being a Lean function, returns exactly
one message deterministically and cannot itself throw), and for every failure —
each HTTP status of §4.2's table, a connection timeout, an unreachable host,
and any other exception — the returned message belongs to the corresponding
category of the table. -/
theorem handleApiError_matches_spec_table (e : ThrownValue) :
    messageInCategory (specErrorCategory e) (handleApiError e) = true := by
  cases e with
  | axiosWithResponse status hm m =>
    simp only [handleApiError, specErrorCategory]
    split
    · rfl
    · split
      · rfl
      · split
        · rfl
        · split
          · rfl
          · split
            · rfl
            · split
              · rfl
              · split
                · rfl
                · rfl
  | axiosNoResponse code m =>
    simp only [handleApiError, specErrorCategory]
    split
    · rfl
    · split
      · rfl
      · rfl
  | plainError m => rfl
  | nonError => rfl

/-- C5: a list-images invocation sends type `"system"` to the provider when no
type filter is given and the given type otherwise, and in both cases the
surfaced entity set contains exactly the response entries whose status is
`"available"`. -/
theorem listImages_query_and_filter :
    (listImagesQuery none = [("type", "system")])
    ∧ (∀ t : ImageType, listImagesQuery (some t) = [("type", imageTypeStr t)])
    ∧ (∀ (resp : ListImagesResponse) (img : HetznerImage),
        img ∈ listImagesResultSet resp ↔ img ∈ resp.images ∧ img.status = ImageStatus.available) := by
  refine ⟨rfl, fun t => rfl, fun resp img => ?_⟩
  simp [listImagesResultSet, List.mem_filter]

/-- C8: the transport client is lazily initialized and memoized: whenever the
first call succeeds and stores a client, every later call returns that same
instance and the same state, for any environment (so the environment is not
re-read and the client is not re-constructed), and the client carries the
fixed base URL and the fixed 30-second (30000 ms) timeout. -/
theorem getApiClient_memoized (env : Option String) (c : AxiosClientConfig)
    (st : Option AxiosClientConfig) (h : getApiClient env none = .ok (c, st)) :
    st = some c
    ∧ (∀ env' : Option String, getApiClient env' st = .ok (c, st))
    ∧ c.baseURL = "https://api.hetzner.cloud/v1"
    ∧ c.timeout = 30000 := by
  cases env with
  | none => simp [getApiClient] at h
  | some token =>
    by_cases ht : token = ""
    · simp [getApiClient, ht] at h
    · simp only [getApiClient, if_neg ht] at h
      obtain ⟨hc, hst⟩ : c = axiosCreate token ∧ st = some (axiosCreate token) := by
        cases h with
        | refl => exact ⟨rfl, rfl⟩
      subst hc
      subst hst
      exact ⟨rfl, fun env' => rfl, rfl, rfl⟩

/-- C8 witness: a concrete first call constructs the client, and the theorem's
conclusions hold for it. -/
theorem getApiClient_memoized_witness :
    some (axiosCreate "token123") = some (axiosCreate "token123")
    ∧ (∀ env' : Option String,
        getApiClient env' (some (axiosCreate "token123"))
          = .ok (axiosCreate "token123", some (axiosCreate "token123")))
    ∧ (axiosCreate "token123").baseURL = "https://api.hetzner.cloud/v1"
    ∧ (axiosCreate "token123").timeout = 30000 :=
  getApiClient_memoized (some "token123") (axiosCreate "token123")
    (some (axiosCreate "token123")) (by simp [getApiClient])

/-- C9: supplying `ssh_keys` as an empty list builds exactly the same outbound
create-server request body as not supplying the parameter at all — in both
cases the `ssh_keys` field is omitted. -/
theorem createServer_empty_ssh_keys_same_request (p : CreateServerParams) :
    buildCreateServerRequest { p with ssh_keys := some [] }
      = buildCreateServerRequest { p with ssh_keys := none }
    ∧ (buildCreateServerRequest { p with ssh_keys := some [] }).ssh_keys = none := by
  constructor
  · rfl
  · rfl

/-- C10: on an empty provider entity list, list-servers and list-SSH-keys in
markdown mode return the fixed guidance message, and in JSON mode the empty
array rendering `[]`. -/
theorem list_empty_guidance (tls : String → String) (ls : Option String) :
    listServersH tls ls ResponseFormat.markdown (fun _ => .ok { servers := [] })
      = { content := [{ text := "No servers found. Use `hetzner_create_server` to create one." }],
          isError := false }
    ∧ listSSHKeysH tls ResponseFormat.markdown (.ok { ssh_keys := [] })
      = { content := [{ text := "No SSH keys found. Use `hetzner_create_ssh_key` to add one." }],
          isError := false }
    ∧ listServersH tls ls ResponseFormat.json (fun _ => .ok { servers := [] })
      = { content := [{ text := "[]" }], isError := false }
    ∧ listSSHKeysH tls ResponseFormat.json (.ok { ssh_keys := [] })
      = { content := [{ text := "[]" }], isError := false } :=
  ⟨rfl, rfl, rfl, rfl⟩

def configErrorMessage : String := "HETZNER_API_TOKEN environment variable is required"

/-- C4 counterexample: the configuration error thrown by `getApiClient` at
first use (reaching the operation as the rejection of the awaited
`makeApiRequest` call, since `getApiClient` is invoked inside the handler's
`try` block) IS caught by the operation's boundary catch and IS converted into
a normalized error result — contradicting the claim that it is not caught by
any operation and not converted. -/
theorem configError_caught_counterexample :
    listServersH id none ResponseFormat.markdown
        (fun _ => .error (.plainError configErrorMessage))
      = { content := [{ text := "Error: HETZNER_API_TOKEN environment variable is required" }],
          isError := true } := rfl

/-- C4 (amended): `getApiClient` does fail fast — it raises the configuration
error when the bearer credential is absent (or empty) at first use — but that
error enjoys no special treatment at the operation boundary: a handler's
catch-all converts it into a normalized error result exactly like a per-call
error.  (The missing-credential situation is instead prevented by the startup
harness in `src/index.ts`, which exits before serving tools.) -/
theorem configError_fail_fast_and_normalized :
    getApiClient none none = .error configErrorMessage
    ∧ getApiClient (some "") none = .error configErrorMessage
    ∧ (∀ (tls : String → String) (ls : Option String) (fmt : ResponseFormat),
        listServersH tls ls fmt (fun _ => .error (.plainError configErrorMessage))
          = { content := [{ text := "Error: " ++ configErrorMessage }], isError := true }) :=
  ⟨rfl, rfl, fun _ _ _ => rfl⟩

/-- C6: a create-server input whose name is empty, longer than 255 characters,
or contains any character outside letters, digits and hyphens fails the zod
input schema, so the invocation is rejected before any request is built or
sent. -/
theorem createServer_invalid_name_no_request (p : CreateServerParams)
    (h : p.name = "" ∨ 255 < p.name.length
      ∨ ∃ c ∈ p.name.data, (c.isAlpha || c.isDigit || c == '-') = false) :
    createServerAttemptedRequest p = none := by
  have hv : validServerName p.name = false := by
    rcases h with h | h | ⟨c, hc, hbad⟩
    · rw [h]
      rfl
    · have h2 : decide (p.name.length ≤ 255) = false := by
        simp only [decide_eq_false_iff_not]
        omega
      simp [validServerName, h2]
    · have h3 : p.name.data.all (fun c => c.isAlpha || c.isDigit || c == '-') = false := by
        rw [List.all_eq_false]
        exact ⟨c, hc, by simp [hbad]⟩
      simp [validServerName, h3]
  simp [createServerAttemptedRequest, validCreateServerParams, hv]

/-- C6 witness: the name `"my app"` (containing a space) is concretely
rejected: no request is built or sent. -/
theorem createServer_invalid_name_no_request_witness :
    (∃ c ∈ ("my app" : String).data, (c.isAlpha || c.isDigit || c == '-') = false)
    ∧ createServerAttemptedRequest
        { name := "my app", server_type := "cx22", image := "ubuntu-24.04" } = none :=
  ⟨by decide,
   createServer_invalid_name_no_request _ (Or.inr (Or.inr (by decide)))⟩

/-- C3: every tool operation (list/get/create/delete/power for servers, the
four SSH-key operations and the three reference lookups) catches any error
raised during its execution at its boundary and returns exactly one normalized
text message with the error flag set — no raw exception propagates past the
handler and the error result carries nothing but the normalized line; and no
successful operation ever sets the error flag, so success output is never
mixed with an error-flagged result. -/
theorem operations_error_boundary (tls : String → String) (e : ThrownValue) :
    ((∀ (ls : Option String) (fmt : ResponseFormat),
        listServersH tls ls fmt (fun _ => .error e) = errorResult e)
      ∧ (∀ (idv : Nat) (fmt : ResponseFormat), getServerH tls idv fmt (.error e) = errorResult e)
      ∧ (∀ p : CreateServerParams, createServerH tls p (.error e) = errorResult e)
      ∧ (∀ idv : Nat, deleteServerH idv (.error e) = errorResult e)
      ∧ (∀ idv : Nat, powerOnServerH idv (.error e) = errorResult e)
      ∧ (∀ idv : Nat, powerOffServerH idv (.error e) = errorResult e)
      ∧ (∀ idv : Nat, rebootServerH idv (.error e) = errorResult e)
      ∧ (∀ fmt : ResponseFormat, listSSHKeysH tls fmt (.error e) = errorResult e)
      ∧ (∀ (idv : Nat) (fmt : ResponseFormat), getSSHKeyH tls idv fmt (.error e) = errorResult e)
      ∧ (∀ p : CreateSSHKeyParams, createSSHKeyH tls p (.error e) = errorResult e)
      ∧ (∀ idv : Nat, deleteSSHKeyH idv (.error e) = errorResult e)
      ∧ (∀ fmt : ResponseFormat, listServerTypesH fmt (.error e) = errorResult e)
      ∧ (∀ (t : Option ImageType) (fmt : ResponseFormat),
          listImagesH t fmt (fun _ => .error e) = errorResult e)
      ∧ (∀ fmt : ResponseFormat, listLocationsH fmt (.error e) = errorResult e))
    ∧ (errorResult e = { content := [{ text := handleApiError e }], isError := true })
    ∧ ((∀ (ls : Option String) (fmt : ResponseFormat) (resp : ListServersResponse),
          (listServersH tls ls fmt (fun _ => .ok resp)).isError = false)
      ∧ (∀ (idv : Nat) (fmt : ResponseFormat) (resp : GetServerResponse),
          (getServerH tls idv fmt (.ok resp)).isError = false)
      ∧ (∀ (p : CreateServerParams) (resp : CreateServerResponse),
          (createServerH tls p (.ok resp)).isError = false)
      ∧ (∀ (idv : Nat) (resp : ServerActionResponse),
          (deleteServerH idv (.ok resp)).isError = false)
      ∧ (∀ (idv : Nat) (resp : ServerActionResponse),
          (powerOnServerH idv (.ok resp)).isError = false)
      ∧ (∀ (idv : Nat) (resp : ServerActionResponse),
          (powerOffServerH idv (.ok resp)).isError = false)
      ∧ (∀ (idv : Nat) (resp : ServerActionResponse),
          (rebootServerH idv (.ok resp)).isError = false)
      ∧ (∀ (fmt : ResponseFormat) (resp : ListSSHKeysResponse),
          (listSSHKeysH tls fmt (.ok resp)).isError = false)
      ∧ (∀ (idv : Nat) (fmt : ResponseFormat) (resp : GetSSHKeyResponse),
          (getSSHKeyH tls idv fmt (.ok resp)).isError = false)
      ∧ (∀ (p : CreateSSHKeyParams) (resp : CreateSSHKeyResponse),
          (createSSHKeyH tls p (.ok resp)).isError = false)
      ∧ (∀ idv : Nat, (deleteSSHKeyH idv (.ok ())).isError = false)
      ∧ (∀ (fmt : ResponseFormat) (resp : ListServerTypesResponse),
          (listServerTypesH fmt (.ok resp)).isError = false)
      ∧ (∀ (t : Option ImageType) (fmt : ResponseFormat) (resp : ListImagesResponse),
          (listImagesH t fmt (fun _ => .ok resp)).isError = false)
      ∧ (∀ (fmt : ResponseFormat) (resp : ListLocationsResponse),
          (listLocationsH fmt (.ok resp)).isError = false)) := by
  refine ⟨⟨fun _ _ => rfl, fun _ _ => rfl, fun _ => rfl, fun _ => rfl, fun _ => rfl,
      fun _ => rfl, fun _ => rfl, fun _ => rfl, fun _ _ => rfl, fun _ => rfl, fun _ => rfl,
      fun _ => rfl, fun _ _ => rfl, fun _ => rfl⟩, rfl,
    ?_, ?_, ?_, fun _ _ => rfl, fun _ _ => rfl, fun _ _ => rfl, fun _ _ => rfl,
    ?_, ?_, ?_, fun _ => rfl, ?_, ?_, ?_⟩
  · intro ls fmt resp
    cases resp with
    | mk servers => cases fmt <;> cases servers <;> rfl
  · intro idv fmt resp
    cases fmt <;> rfl
  · intro p resp
    cases hp : p.response_format <;> simp [createServerH, hp]
  · intro fmt resp
    cases resp with
    | mk keys => cases fmt <;> cases keys <;> rfl
  · intro idv fmt resp
    cases fmt <;> rfl
  · intro p resp
    cases hp : p.response_format <;> simp [createSSHKeyH, hp]
  · intro fmt resp
    cases fmt <;> rfl
  · intro t fmt resp
    cases fmt <;> rfl
  · intro fmt resp
    cases fmt <;> rfl

theorem joinLines_cons_cons (a b : String) (rest : List String) :
    joinLines (a :: b :: rest) = a ++ ("\n" ++ joinLines (b :: rest)) := by
  simp [joinLines, joinWith, String.append_assoc]

theorem joinLines_cons (a : String) (rest : List String) :
    ∃ y : String, joinLines (a :: rest) = a ++ y := by
  cases rest with
  | nil => exact ⟨"", by simp [joinLines, joinWith]⟩
  | cons b bs => exact ⟨"\n" ++ joinLines (b :: bs), joinLines_cons_cons a b bs⟩

/-- The `formatServer` output always yields a block opening with the `"## "` heading. -/
theorem formatServer_eq_heading_append (tls : String → String) (srv : HetznerServer) :
    ∃ x : String, formatServer tls srv = "## " ++ x := by
  have hlines : formatServerLines tls srv
      = serverHeadingLine srv :: List.tail (formatServerLines tls srv) := by
    cases himg : srv.image <;> simp [formatServerLines, himg, serverHeadingLine]
  obtain ⟨y, hy⟩ := joinLines_cons (serverHeadingLine srv) (List.tail (formatServerLines tls srv))
  refine ⟨(srv.name ++ " (ID: " ++ toString srv.id ++ ")") ++ y, ?_⟩
  rw [formatServer, hlines, hy, serverHeadingLine, String.append_assoc]

theorem formatServer_ne_of_not_heading {b : String} (tls : String → String) (srv : HetznerServer)
    (hb : listStartsWith ("## ").data b.data = false) : formatServer tls srv ≠ b := by
  obtain ⟨x, hx⟩ := formatServer_eq_heading_append tls srv
  rw [hx]
  exact ne_of_not_startsWith x hb

theorem formatServer_head (tls : String → String) (srv : HetznerServer) :
    (formatServer tls srv).data.head? = some '#' := by
  obtain ⟨x, hx⟩ := formatServer_eq_heading_append tls srv
  rw [hx]
  exact head_append_of_data x rfl

theorem rootPasswordLine_head (pw : String) :
    (rootPasswordLine pw).data.head? = some '*' := by
  rw [rootPasswordLine, String.data_append, String.data_append]
  rfl

theorem rootPasswordLine_inj {pw pw0 : String}
    (h : rootPasswordLine pw = rootPasswordLine pw0) : pw = pw0 := by
  rw [rootPasswordLine, rootPasswordLine] at h
  exact strAppend_cancel_left (strAppend_cancel_right h)

/-- C2 (amended): the markdown success output of create-server branches on JS
truthiness of the provider-returned `root_password` field (not on the supplied
`ssh_keys`): when `root_password` is non-null and non-empty the output reports
exactly that one-time root password together with the "will not be shown
again" guidance, and otherwise it reports that no root password was generated
— exactly one of the two outcomes for every response, never both, never
neither.  Under the provider contract that `root_password` is returned exactly
when no SSH keys were sent, this yields the claimed ssh-keys dichotomy. -/
theorem createServer_password_dichotomy (tls : String → String) (srv : HetznerServer)
    (rp : Option String) :
    (noRootPasswordLine ∈ createServerMarkdownLines tls srv rp ↔ jsTruthy rp = false)
    ∧ (rootPasswordWarnLine ∈ createServerMarkdownLines tls srv rp ↔ jsTruthy rp = true)
    ∧ (∀ pw : String, rootPasswordLine pw ∈ createServerMarkdownLines tls srv rp
        ↔ (rp = some pw ∧ pw ≠ "")) := by
  have hfmtNoRoot : noRootPasswordLine ≠ formatServer tls srv :=
    Ne.symm (formatServer_ne_of_not_heading tls srv (by decide))
  have hfmtWarn : rootPasswordWarnLine ≠ formatServer tls srv :=
    Ne.symm (formatServer_ne_of_not_heading tls srv (by decide))
  have hpwNe : ∀ (pw b : String), b.data.head? ≠ some '*' → rootPasswordLine pw ≠ b := by
    intro pw b hb
    apply string_ne_of_head_ne
    rw [rootPasswordLine_head]
    exact fun hc => hb hc.symm
  have hpwFmt : ∀ pw : String, rootPasswordLine pw ≠ formatServer tls srv := by
    intro pw
    apply string_ne_of_head_ne
    rw [rootPasswordLine_head, formatServer_head]
    decide
  have hWH : rootPasswordWarnLine ≠ "# Server Created" := by decide
  have hWE : rootPasswordWarnLine ≠ "" := by decide
  have hWN : rootPasswordWarnLine ≠ noRootPasswordLine := by decide
  have hWP : rootPasswordWarnLine
      ≠ "The server is being provisioned. Use `hetzner_get_server` to check its status." := by
    decide
  have hNH : noRootPasswordLine ≠ "# Server Created" := by decide
  have hNE : noRootPasswordLine ≠ "" := by decide
  have hNW : noRootPasswordLine ≠ rootPasswordWarnLine := by decide
  have hNP : noRootPasswordLine
      ≠ "The server is being provisioned. Use `hetzner_get_server` to check its status." := by
    decide
  rcases rp with _ | pw0
  · refine ⟨?_, ?_, ?_⟩
    · simp [createServerMarkdownLines, jsTruthy]
    · simp [createServerMarkdownLines, jsTruthy, hWH, hWE, hWN, hWP, hfmtWarn]
    · intro pw
      simp [createServerMarkdownLines, jsTruthy, hpwFmt pw,
        hpwNe pw "# Server Created" (by decide), hpwNe pw "" (by decide),
        hpwNe pw noRootPasswordLine (by decide),
        hpwNe pw "The server is being provisioned. Use `hetzner_get_server` to check its status." (by decide)]
  · by_cases hpw0 : pw0 = ""
    · subst hpw0
      refine ⟨?_, ?_, ?_⟩
      · simp [createServerMarkdownLines, jsTruthy]
      · simp [createServerMarkdownLines, jsTruthy, hWH, hWE, hWN, hWP, hfmtWarn]
      · intro pw
        constructor
        · intro hmem
          exfalso
          simp [createServerMarkdownLines, jsTruthy, hpwFmt pw,
            hpwNe pw "# Server Created" (by decide), hpwNe pw "" (by decide),
            hpwNe pw noRootPasswordLine (by decide),
            hpwNe pw "The server is being provisioned. Use `hetzner_get_server` to check its status." (by decide)] at hmem
        · rintro ⟨hsome, hne⟩
          exact absurd (Option.some.inj hsome).symm hne
    · have htr : jsTruthy (some pw0) = true := by simp [jsTruthy, hpw0]
      have hOr : jsOrElse (some pw0) "" = pw0 := by simp [jsOrElse, hpw0]
      have hNpw : noRootPasswordLine ≠ rootPasswordLine pw0 :=
        Ne.symm (hpwNe pw0 noRootPasswordLine (by decide))
      refine ⟨?_, ?_, ?_⟩
      · rw [htr]
        simp [createServerMarkdownLines, htr, hOr, hNH, hNE, hNW, hNP, hfmtNoRoot, hNpw]
      · rw [htr]
        simp [createServerMarkdownLines, htr]
      · intro pw
        constructor
        · intro hmem
          simp only [createServerMarkdownLines, htr, hOr, if_true, List.cons_append,
            List.nil_append, List.mem_cons, List.not_mem_nil, or_false] at hmem
          rcases hmem with h | h | h | h | h | h | h | h | h
          · exact absurd h (hpwNe pw "# Server Created" (by decide))
          · exact absurd h (hpwNe pw "" (by decide))
          · exact absurd h (hpwFmt pw)
          · exact absurd h (hpwNe pw "" (by decide))
          · exact ⟨by rw [rootPasswordLine_inj h], by rw [rootPasswordLine_inj h]; exact hpw0⟩
          · exact absurd h (hpwNe pw "" (by decide))
          · exact absurd h (hpwNe pw rootPasswordWarnLine (by decide))
          · exact absurd h (hpwNe pw "" (by decide))
          · exact absurd h (hpwNe pw "The server is being provisioned. Use `hetzner_get_server` to check its status." (by decide))
        · rintro ⟨hsome, _⟩
          have hp : pw = pw0 := (Option.some.inj hsome).symm
          subst hp
          simp [createServerMarkdownLines, htr, hOr]

/-! ## Concrete example values -/

def exampleServer : HetznerServer :=
  { id := 42,
    name := "web-1",
    status := .running,
    public_net := { ipv4 := some { ip := "192.0.2.10" }, ipv6 := none },
    server_type :=
      { id := 1, name := "cx22", description := "CX22", cores := 2, memory := 4, disk := 40 },
    datacenter :=
      { id := 1, name := "fsn1-dc14", description := "Falkenstein DC 14",
        location := { id := 1, name := "fsn1", city := "Falkenstein", country := "DE" } },
    image := none,
    labels := [],
    created := "2024-01-01T00:00:00+00:00" }

def exampleServerProd : HetznerServer :=
  { exampleServer with labels := [("env", "prod")] }

def exampleCreateParamsWithKey : CreateServerParams :=
  { name := "web-1", server_type := "cx22", image := "ubuntu-24.04",
    ssh_keys := some [SSHKeyRef.byName "mykey"] }

def exampleCreateResponse : CreateServerResponse :=
  { server := exampleServer,
    action :=
      { id := 7, command := "create_server", status := .running, progress := 0,
        started := "2024-01-01T00:00:00+00:00", finished := none, error := none },
    root_password := some "SecretPass123" }

/-- C2 counterexample: with at least one SSH key supplied (the request body
does carry `ssh_keys`) but a response whose `root_password` field is set, the
success output reports the one-time root password and does NOT report its
absence — refuting the claim that with at least one SSH key supplied the
output reports that no root password was generated, for every combination of
supplied `ssh_keys` and provider-returned `root_password`. -/
theorem createServer_password_counterexample :
    (buildCreateServerRequest exampleCreateParamsWithKey).ssh_keys
        = some [SSHKeyRef.byName "mykey"]
    ∧ createServerH id exampleCreateParamsWithKey (.ok exampleCreateResponse)
        = { content := [{ text := joinLines (
              createServerMarkdownLines id exampleServer (some "SecretPass123")) }],
            isError := false }
    ∧ rootPasswordLine "SecretPass123"
        ∈ createServerMarkdownLines id exampleServer (some "SecretPass123")
    ∧ noRootPasswordLine
        ∉ createServerMarkdownLines id exampleServer (some "SecretPass123") := by
  refine ⟨rfl, rfl, by decide, by decide⟩

/-- C7: the narrative server block renders a labels line only when the label
map is non-empty — with an empty label map no line of the block leads with
`- **Labels**`, with a non-empty map the block contains the line joining the
`key=value` pairs with commas, and for the map `{env: prod}` that line is
exactly `- **Labels**: env=prod`. -/
theorem formatServer_labels_rendering (tls : String → String) (srv : HetznerServer) :
    (srv.labels = [] → ∀ l ∈ formatServerLines tls srv, strStartsWith "- **Labels**" l = false)
    ∧ (srv.labels ≠ [] → labelsLine srv.labels ∈ formatServerLines tls srv)
    ∧ (srv.labels = [("env", "prod")] →
        labelsLine srv.labels = "- **Labels**: env=prod"
        ∧ "- **Labels**: env=prod" ∈ formatServerLines tls srv) := by
  have hmem : srv.labels ≠ [] → labelsLine srv.labels ∈ formatServerLines tls srv := by
    intro h
    have hpos : srv.labels.length > 0 := List.length_pos.mpr h
    cases himg : srv.image <;> simp [formatServerLines, himg, hpos]
  refine ⟨?_, hmem, ?_⟩
  · intro h l hl
    cases himg : srv.image with
    | none =>
      simp [formatServerLines, himg, h] at hl
      rcases hl with rfl | rfl | rfl | rfl | rfl | rfl | rfl <;> rfl
    | some img =>
      simp [formatServerLines, himg, h] at hl
      rcases hl with rfl | rfl | rfl | rfl | rfl | rfl | rfl | rfl <;> rfl
  · intro h
    have heq : labelsLine srv.labels = "- **Labels**: env=prod" := by
      rw [h]
      rfl
    exact ⟨heq, heq ▸ hmem (by rw [h]; simp)⟩

/-- C7 witness: a concrete server with no labels has no labels line in its
block, and a concrete server with labels `{env: prod}` has exactly the line
`- **Labels**: env=prod`. -/
theorem formatServer_labels_rendering_witness :
    (∀ l ∈ formatServerLines id exampleServer, strStartsWith "- **Labels**" l = false)
    ∧ ("- **Labels**: env=prod" ∈ formatServerLines id exampleServerProd) :=
  ⟨(formatServer_labels_rendering id exampleServer).1 rfl,
   ((formatServer_labels_rendering id exampleServerProd).2.2 rfl).2⟩

end Hetzner
